import Mathlib

set_option maxRecDepth 40000

/-!
Verification development for the ppd534 course-notebook repository.

The repository consists of four Jupyter notebooks (modules 03, 06, 07, 12).
Each notebook is a linear sequence of cells that call into third-party
libraries (pandas, geopandas, statsmodels, seaborn, numpy, matplotlib,
shapely) plus a handful of pure-Python teaching examples.

We embed the repository at two levels:

1. A static, per-cell transcription of every code cell of every notebook:
   which library functions each cell calls, which remote URLs it fetches,
   which files it writes (savefig), and which Python constructs it uses
   (for loops, list comprehensions, try/except, function definitions).
   Convention: every function or method CALL in a cell is listed, in source
   order, attributed to the library whose API it belongs to; frame methods
   inherited from pandas (head, isin, merge, dropna, groupby, ...) are
   attributed to pandas, spatial-specific GeoDataFrame operations
   (read_file, to_crs, sjoin, within, intersects, dissolve, buffer, plot on
   a GeoDataFrame, points_from_xy, GeoDataFrame construction, unary_union)
   to geopandas, matplotlib axes/figure methods to matplotlib, and Python
   builtins (print, type, str, int, len, append, ...) to pybuiltin.
   Pure attribute accesses (such as .shape, .crs, .columns, .index, .loc
   slicing) and arithmetic are not calls and are not listed.  A cell that
   is only comments, display of a variable or arithmetic has an empty call
   list.  The leading "pip install" shell line of modules 06/07/12 is
   recorded as a shell call.

2. Small executable semantic models, transcribed from the relevant cells:
   the CRS bookkeeping of the spatial-join pipelines of modules 07 and 12,
   the column-select/dropna/add_constant data preparation feeding each
   sm.OLS fit of module 12, the dummy-variable construction of module 12,
   and the three int-to-string conversion methods of module 03.
-/

namespace PPD534

/-- Third-party libraries (and the Python builtin namespace) that notebook
cells call into. -/
inductive Lib
  | pandas
  | geopandas
  | shapely
  | statsmodels
  | seaborn
  | numpy
  | matplotlib
  | mapclassify
  | pybuiltin
  | shell
deriving DecidableEq

/-- A single function or method call made by a notebook cell: the library
the called API belongs to, and the function name. -/
structure Call where
  lib : Lib
  fn : String
deriving DecidableEq

/-- Static facts about one code cell of a notebook. -/
structure Cell where
  idx : Nat
  calls : List Call := []
  urls : List String := []
  localReads : List String := []
  savefigs : List String := []
  hasTryExcept : Bool := false
  hasForLoop : Bool := false
  hasListComp : Bool := false
  definesFunc : Bool := false
deriving DecidableEq

/-- A notebook: its module name and the transcription of its code cells. -/
structure Notebook where
  name : String
  cells : List Cell
deriving DecidableEq

def pcall (fn : String) : Call := ⟨Lib.pandas, fn⟩
def gcall (fn : String) : Call := ⟨Lib.geopandas, fn⟩
def bcall (fn : String) : Call := ⟨Lib.pybuiltin, fn⟩
def scall (fn : String) : Call := ⟨Lib.seaborn, fn⟩
def mcall (fn : String) : Call := ⟨Lib.matplotlib, fn⟩
def smcall (fn : String) : Call := ⟨Lib.statsmodels, fn⟩
def ncall (fn : String) : Call := ⟨Lib.numpy, fn⟩

/-- A cell that makes the given calls and nothing else. -/
def cell (i : Nat) (cs : List Call) : Cell := { idx := i, calls := cs }

/-- Module 03 "Coding Bootcamp I": pure-Python teaching cells, no library
imports at all.  Cell indices follow the notebook.  Cells 30/31/33 are
ipython help queries or deliberately incomplete tokens, cells 34/56/75/77
raise errors when run; none of that involves a call that resolves. -/
def nb03 : Notebook :=
  { name := "03-coding-bootcamp-i"
    cells :=
      [ cell 5 [bcall "print"]
      , cell 6 []
      , cell 9 [], cell 10 [], cell 11 [], cell 12 [], cell 13 [], cell 14 []
      , cell 15 []
      , cell 17 [], cell 18 [], cell 19 [], cell 20 [], cell 21 [], cell 22 []
      , cell 23 [], cell 24 []
      , cell 25 [bcall "print", bcall "print"]
      , cell 26 [bcall "print"]
      , cell 27 [bcall "print"]
      , cell 28 []
      , cell 30 [], cell 31 [], cell 32 [], cell 33 [], cell 34 []
      , cell 38 [bcall "type"]
      , cell 39 [bcall "type"]
      , cell 40 [bcall "isinstance"]
      , cell 41 [bcall "type"]
      , cell 42 [bcall "isinstance"]
      , cell 43 [bcall "isinstance"]
      , cell 44 [bcall "type"]
      , cell 45 []
      , cell 46 [bcall "type"]
      , cell 47 []
      , cell 48 [bcall "type"]
      , cell 49 []
      , cell 51 [], cell 52 []
      , cell 53 [bcall "print", bcall "type", bcall "print", bcall "type",
                 bcall "print", bcall "type"]
      , cell 55 [bcall "print"]
      , cell 56 [], cell 57 [], cell 58 []
      , cell 59 [bcall "print"]
      , cell 60 [bcall "print", bcall "print", bcall "print"]
      , cell 61 [bcall "len"]
      , cell 62 [], cell 63 [], cell 64 [], cell 65 []
      , cell 66 [bcall "replace"]
      , cell 67 []
      , cell 69 []
      , cell 70 [bcall "type"]
      , cell 71 [bcall "int"]
      , cell 72 [bcall "type"]
      , cell 73 []
      , cell 74 [bcall "print", bcall "str", bcall "print"]
      , cell 75 [bcall "int"]
      , cell 76 [bcall "int", bcall "float"]
      , cell 77 []
      , cell 78 [bcall "str"]
      , cell 79 []
      , cell 81 []
      , cell 82 [bcall "sum"]
      , cell 83 [bcall "set"]
      , cell 84 []
      , cell 85 [bcall "len"]
      , cell 86 [], cell 87 []
      , cell 88 [bcall "append"]
      , cell 89 []
      , cell 91 []
      , cell 92 [bcall "len"]
      , cell 93 []
      , cell 94 [bcall "type"]
      , cell 95 [bcall "str"]
      , cell 96 [bcall "type", bcall "str"]
      , cell 97 []
      , cell 98 [bcall "append", bcall "str"]
      , cell 100 [bcall "append", bcall "str", bcall "append", bcall "str",
                  bcall "append", bcall "str", bcall "append", bcall "str"]
      , cell 101 [], cell 102 []
      , { idx := 103, calls := [bcall "append", bcall "str"], hasForLoop := true }
      , { idx := 104, calls := [bcall "str"], hasListComp := true }
      , cell 105 [], cell 106 []
      , cell 116 []
      ] }

def urlTracts : String :=
  "https://raw.githubusercontent.com/gboeing/ppd534/main/data/census_tracts_data_ca.csv"

def urlGdp : String :=
  "https://raw.githubusercontent.com/gboeing/ppd534/main/data/gdp.csv"

def urlShapefile : String :=
  "https://raw.githubusercontent.com/gboeing/ppd534/main/data/tl_2017_06_tract/tl_2017_06_tract.shp"

def urlListings : String :=
  "https://raw.githubusercontent.com/gboeing/ppd534/main/data/listings-la_oc_vc.csv"

/-- Module 06 "Data visualization": loads the CA tract census CSV and the
country GDP CSV from remote URLs, computes grouped descriptive statistics,
and renders seaborn plots, saving four figures as PNG files. -/
def nb06 : Notebook :=
  { name := "06-data-visualization"
    cells :=
      [ cell 1 [⟨Lib.shell, "pip-install"⟩]
      , cell 2 []
      , { idx := 4, calls := [pcall "read_csv"], urls := [urlTracts] }
      , cell 5 []
      , cell 6 [pcall "set_index", pcall "head"]
      , cell 8 [pcall "isin"]
      , cell 9 [pcall "describe"]
      , cell 10 [pcall "groupby", pcall "describe", pcall "astype"]
      , cell 12 [scall "boxplot"]
      , cell 14 [bcall "type"]
      , cell 15 [mcall "get_figure", bcall "type"]
      , cell 16 [mcall "get_figure", mcall "set_size_inches"]
      , { idx := 18
          calls := [scall "set_style", scall "set_context", scall "boxplot",
                    mcall "set_xlim", mcall "set_title", mcall "set_xlabel",
                    mcall "set_ylabel", mcall "get_figure", mcall "savefig"]
          savefigs := ["figure-income-boxplot.png"] }
      , cell 19 []
      , cell 21 [scall "histplot", pcall "dropna"]
      , cell 22 [scall "histplot", pcall "dropna"]
      , cell 24 []
      , cell 25 [scall "histplot", pcall "dropna", scall "histplot", pcall "dropna"]
      , { idx := 26
          calls := [scall "histplot", pcall "dropna", scall "histplot",
                    pcall "dropna", mcall "legend", mcall "set_xlim",
                    mcall "set_xlabel", mcall "get_figure", mcall "savefig"]
          savefigs := ["figure-age-distributions.png"] }
      , cell 28 []
      , cell 30 [scall "scatterplot"]
      , cell 31 [pcall "isin", scall "scatterplot"]
      , { idx := 32
          calls := [pcall "isin", scall "scatterplot",
                    mcall "get_legend_handles_labels", mcall "legend",
                    mcall "set_xlim", mcall "set_ylim", mcall "set_xlabel",
                    mcall "set_ylabel", mcall "get_figure", mcall "savefig"]
          savefigs := ["figure-income-degree.png"] }
      , cell 33 []
      , cell 35 [pcall "head"]
      , cell 36 [scall "pairplot", pcall "dropna"]
      , cell 38 [pcall "corr", pcall "round"]
      , cell 39 [scall "heatmap"]
      , cell 40 [scall "regplot", mcall "get_figure", mcall "set_size_inches"]
      , cell 42 [pcall "value_counts", pcall "sort_index"]
      , cell 43 [scall "countplot"]
      , { idx := 44
          calls := [pcall "value_counts", scall "countplot",
                    mcall "set_xticklabels", mcall "get_xticklabels",
                    mcall "set_xlabel", mcall "set_ylabel",
                    mcall "get_figure", mcall "savefig"]
          savefigs := ["county-tracts-countplot.png"] }
      , cell 45 [scall "barplot"]
      , cell 46 [pcall "groupby", pcall "median", pcall "sort_values",
                 ncall "median", scall "barplot"]
      , { idx := 48, calls := [pcall "read_csv", pcall "set_index"], urls := [urlGdp] }
      , cell 49 [pcall "tail"]
      , cell 50 [scall "lineplot"]
      , cell 51 [scall "lineplot"]
      , cell 52 [scall "lineplot"]
      , { idx := 53
          calls := [scall "lineplot", mcall "set_xlim", mcall "set_ylim",
                    mcall "set_xlabel", mcall "set_ylabel", mcall "set_title",
                    mcall "get_figure", mcall "savefig"]
          savefigs := ["country-gdp-lineplot.png"] }
      , cell 54 []
      , cell 56 [scall "palplot", scall "color_palette"]
      , cell 57 [scall "palplot", scall "color_palette"]
      , cell 58 [scall "palplot", scall "color_palette"]
      , cell 59 [], cell 60 []
      ] }

/-- Module 07 "Introduction to Spatial Data": loads the tract shapefile and
the listings CSV from remote URLs, reprojects, runs spatial predicates and
a spatial join, merges census indicators, and saves three map PNG files. -/
def nb07 : Notebook :=
  { name := "07-spatial-data"
    cells :=
      [ cell 1 [⟨Lib.shell, "pip-install"⟩]
      , cell 2 []
      , { idx := 5, calls := [gcall "read_file"], urls := [urlShapefile] }
      , cell 6 [pcall "head"]
      , cell 7 [gcall "plot"]
      , cell 8 [pcall "isin"]
      , cell 9 []
      , { idx := 11, calls := [pcall "read_csv"], urls := [urlListings] }
      , cell 12 [pcall "head"]
      , cell 14 [gcall "GeoDataFrame"]
      , cell 15 [gcall "points_from_xy"]
      , cell 16 [pcall "head"]
      , cell 17 [], cell 19 []
      , cell 20 [gcall "to_crs"]
      , cell 24 [gcall "unary_union", bcall "type"]
      , cell 25 []
      , cell 26 [gcall "intersects"]
      , cell 27 []
      , cell 29 [pcall "head"]
      , cell 30 [gcall "dissolve"]
      , cell 31 [gcall "plot"]
      , cell 33 [bcall "type"]
      , cell 34 []
      , cell 35 [gcall "within"]
      , cell 37 [gcall "plot"]
      , cell 38 [pcall "head"]
      , cell 39 [gcall "buffer", pcall "head"]
      , cell 40 [gcall "plot"]
      , cell 42 [gcall "plot", gcall "plot"]
      , cell 43 [gcall "to_crs", gcall "to_crs"]
      , cell 44 [gcall "plot", gcall "plot"]
      , cell 45 [gcall "to_crs", gcall "to_crs"]
      , cell 46 [gcall "plot", gcall "plot"]
      , cell 47 [gcall "plot", gcall "buffer", gcall "plot"]
      , { idx := 50, calls := [pcall "read_csv"], urls := [urlTracts] }
      , cell 51 [pcall "head"]
      , cell 52 [pcall "head"]
      , cell 53 [pcall "merge", pcall "head"]
      , cell 54 [], cell 56 []
      , cell 57 [gcall "to_crs"]
      , cell 58 [gcall "sjoin"]
      , cell 59 [pcall "head"]
      , cell 60 [pcall "rename", pcall "head"]
      , cell 61 [pcall "groupby"]
      , cell 62 [pcall "median", pcall "sort_values"]
      , cell 63 [pcall "mean", pcall "sort_values"]
      , cell 64 [pcall "count", pcall "sort_values"]
      , cell 65 []
      , cell 67 [pcall "head"]
      , cell 68 []
      , { idx := 69
          calls := [gcall "plot", mcall "axis", mcall "get_figure", mcall "savefig"]
          savefigs := ["oc-income.png"] }
      , { idx := 70
          calls := [gcall "plot", mcall "axis", mcall "get_figure", mcall "savefig"]
          savefigs := ["oc-language.png"] }
      , { idx := 71
          calls := [gcall "plot", pcall "dropna", gcall "plot", mcall "axis",
                    mcall "set_title", mcall "get_figure", mcall "savefig"]
          savefigs := ["oc-listings.png"] }
      , cell 72 []
      ] }

/-- Module 12 "Statistical Models": merges tract geometries with census
data, spatial-joins listings to tracts, and fits five OLS models with
statsmodels (cells 16, 20, 22, 26 and 33), each preceded in its cell by a
column-select/dropna step and wrapped around sm.add_constant. -/
def nb12 : Notebook :=
  { name := "12-statistical-models"
    cells :=
      [ cell 1 [⟨Lib.shell, "pip-install"⟩]
      , cell 2 []
      , { idx := 4, calls := [gcall "read_file"], urls := [urlShapefile] }
      , { idx := 5, calls := [pcall "read_csv"], urls := [urlTracts] }
      , cell 6 [pcall "merge"]
      , { idx := 8
          calls := [pcall "read_csv", gcall "points_from_xy", gcall "GeoDataFrame"]
          urls := [urlListings] }
      , cell 9 []
      , cell 10 [gcall "to_crs"]
      , cell 11 [gcall "sjoin"]
      , cell 12 []
      , cell 14 []
      , cell 15 [pcall "dropna", bcall "print"]
      , cell 16 [smcall "OLS", smcall "add_constant", smcall "fit",
                 bcall "print", smcall "summary"]
      , cell 18 [scall "regplot"]
      , cell 20 [pcall "dropna", smcall "OLS", smcall "add_constant",
                 smcall "fit", bcall "print", smcall "summary"]
      , cell 22 [pcall "dropna", smcall "OLS", smcall "add_constant",
                 smcall "fit", bcall "print", smcall "summary"]
      , cell 23 []
      , cell 25 [pcall "astype"]
      , cell 26 [pcall "dropna", smcall "OLS", smcall "add_constant",
                 smcall "fit", bcall "print", smcall "summary"]
      , cell 28 [pcall "corr", pcall "round"]
      , cell 29 [scall "heatmap"]
      , cell 30 [scall "pairplot", pcall "dropna"]
      , cell 31 [ncall "log"]
      , cell 32 [pcall "corr", pcall "round"]
      , cell 33 [pcall "dropna", smcall "OLS", smcall "add_constant",
                 smcall "fit", bcall "print", smcall "summary"]
      ] }

/-- The four notebooks of the repository. -/
def notebooks : List Notebook := [nb03, nb06, nb07, nb12]

/-- All code cells of all four notebooks. -/
def allCells : List Cell := notebooks.flatMap Notebook.cells

/-- Does the cell make a call to the given function of the given library? -/
def callIn (c : Cell) (l : Lib) (fn : String) : Bool :=
  c.calls.any (fun k => k.lib == l && k.fn == fn)

/-- Does some cell of the notebook call the given library function? -/
def nbCalls (nb : Notebook) (l : Lib) (fn : String) : Bool :=
  nb.cells.any (fun c => callIn c l fn)

/-- Every call with one of the delegated-computation names resolves to the
expected external library: OLS is always statsmodels, and the spatial
predicate and reprojection names are always geopandas. -/
def delegationOk (cs : List Cell) : Bool :=
  cs.all (fun c => c.calls.all (fun k =>
    match k.fn with
    | "OLS" => k.lib == Lib.statsmodels
    | "sjoin" => k.lib == Lib.geopandas
    | "within" => k.lib == Lib.geopandas
    | "intersects" => k.lib == Lib.geopandas
    | "to_crs" => k.lib == Lib.geopandas
    | _ => true))

/-- No cell defines a function of its own. -/
def noCustomDefs (cs : List Cell) : Bool :=
  cs.all (fun c => !c.definesFunc)

/-- Every cell containing a for loop or list comprehension lives in module
03 and calls only Python builtins. -/
def loopsOnlyBuiltin (nbs : List Notebook) : Bool :=
  nbs.all (fun nb => nb.cells.all (fun c =>
    !(c.hasForLoop || c.hasListComp) ||
      (nb.name == "03-coding-bootcamp-i" &&
        c.calls.all (fun k => k.lib == Lib.pybuiltin))))

/-- The notebook loads a tabular dataset (pd.read_csv). -/
def loadsTabular (nb : Notebook) : Bool := nbCalls nb Lib.pandas "read_csv"

/-- The notebook loads a spatial dataset (gpd.read_file). -/
def loadsSpatial (nb : Notebook) : Bool := nbCalls nb Lib.geopandas "read_file"

/-- The notebook merges or joins datasets (pd.merge or gpd.sjoin). -/
def mergesOrJoins (nb : Notebook) : Bool :=
  nbCalls nb Lib.pandas "merge" || nbCalls nb Lib.geopandas "sjoin"

/-- The notebook computes descriptive statistics via pandas. -/
def computesDescStats (nb : Notebook) : Bool :=
  nbCalls nb Lib.pandas "describe" || nbCalls nb Lib.pandas "median" ||
  nbCalls nb Lib.pandas "mean" || nbCalls nb Lib.pandas "corr" ||
  nbCalls nb Lib.pandas "value_counts"

/-- The notebook produces a visualization (a seaborn call or a geopandas
map plot). -/
def visualizes (nb : Notebook) : Bool :=
  nb.cells.any (fun c => c.calls.any (fun k =>
    k.lib == Lib.seaborn || (k.lib == Lib.geopandas && k.fn == "plot")))

/-- The notebook fits an OLS regression model with statsmodels. -/
def fitsOLS (nb : Notebook) : Bool := nbCalls nb Lib.statsmodels "OLS"

/-- The notebook performs all five activities the spec lists: loads tabular
and spatial datasets, merges/joins, computes descriptive statistics,
visualizes, and fits OLS models. -/
def performsAllFive (nb : Notebook) : Bool :=
  loadsTabular nb && loadsSpatial nb && mergesOrJoins nb &&
  computesDescStats nb && visualizes nb && fitsOLS nb

/-- The first string is a prefix of the second (on character lists, so it
evaluates by kernel reduction). -/
def strHasPrefix (p s : String) : Bool := p.toList.isPrefixOf s.toList

/-- The first string is a suffix of the second. -/
def strHasSuffix (p s : String) : Bool :=
  p.toList.reverse.isPrefixOf s.toList.reverse

/-- Every remote URL the cell fetches is on raw.githubusercontent.com over
HTTPS, and the cell reads no local file. -/
def remoteInputsOnly (c : Cell) : Bool :=
  c.urls.all (fun u => strHasPrefix "https://raw.githubusercontent.com/" u) &&
  c.localReads.isEmpty

/-- Every file the cell writes is a PNG written by a savefig call. -/
def writesOnlyPngViaSavefig (c : Cell) : Bool :=
  c.savefigs.all (fun f => strHasSuffix ".png" f) &&
  (c.savefigs.isEmpty || callIn c Lib.matplotlib "savefig")

/-- The cell never persists a frame to disk: no to_csv or to_file call. -/
def noFramePersistence (c : Cell) : Bool :=
  c.calls.all (fun k => k.fn != "to_csv" && k.fn != "to_file")

/-- No cell of the list contains a try/except handler. -/
def noTryExcept (cs : List Cell) : Bool :=
  cs.all (fun c => !c.hasTryExcept)

/-- All data inputs of the notebook: remote URLs and local file reads. -/
def nbInputs (nb : Notebook) : List String :=
  nb.cells.flatMap (fun c => c.urls ++ c.localReads)

/-- All files the notebook writes to local disk. -/
def nbWrites (nb : Notebook) : List String :=
  nb.cells.flatMap (fun c => c.savefigs)

/-- No notebook of the list reads any file that any notebook of the list
writes, and no notebook reads any local file at all. -/
def independentNotebooks (nbs : List Notebook) : Bool :=
  nbs.all (fun a => nbs.all (fun b =>
    (nbWrites a).all (fun f => !(nbInputs b).contains f))) &&
  nbs.all (fun nb => nb.cells.all (fun c => c.localReads.isEmpty))

/-- Function names that introduce randomness, sampling, or concurrency. -/
def nondetFns : List String :=
  ["random", "rand", "randn", "randint", "normal", "uniform", "choice",
   "permutation", "shuffle", "seed", "sample", "Thread", "Process", "Pool",
   "map_async", "apply_async", "run_in_executor", "create_task"]

/-- No cell of the list calls a randomness, sampling, or concurrency
primitive. -/
def noNondeterminism (cs : List Cell) : Bool :=
  cs.all (fun c => c.calls.all (fun k => !nondetFns.contains k.fn))

/-!
CRS bookkeeping of the spatial-join pipelines.

A GeoDataFrame is abstracted to its CRS string.  Filtering, dissolving and
merging (with the geodataframe on the left) preserve the CRS; to_crs
replaces it with the target.  The shapefile's CRS comes from its .prj file
and is treated as a parameter `shp`.  Definitions are named after the
notebook variable and the cell that assigns it.
-/

def epsg4326 : String := "epsg:4326"

def epsg2163 : String := "epsg:2163"

def utm11 : String := "+proj=utm +zone=11 +ellps=WGS84 +datum=WGS84 +units=m +no_defs"

/-- A GeoDataFrame abstracted to its coordinate reference system. -/
structure Gdf where
  crs : String
deriving DecidableEq

/-- gdf.to_crs(target) projects the geodataframe to the target CRS. -/
def Gdf.to_crs (_g : Gdf) (target : String) : Gdf := ⟨target⟩

/-- Module 07 cell 5: gdf = gpd.read_file(shapefile), CRS from .prj. -/
def m07_gdf (shp : String) : Gdf := ⟨shp⟩

/-- Module 07 cell 8: gdf_tracts = gdf[gdf.COUNTYFP.isin(...)], filter
preserves CRS. -/
def m07_gdf_tracts_c8 (shp : String) : Gdf := m07_gdf shp

/-- Module 07 cells 14-15: gdf_listings built from the CSV with
gdf_listings.crs = "epsg:4326". -/
def m07_gdf_listings_c15 : Gdf := ⟨epsg4326⟩

/-- Module 07 cell 20: gdf_tracts = gdf_tracts.to_crs(gdf_listings.crs). -/
def m07_gdf_tracts_c20 (shp : String) : Gdf :=
  (m07_gdf_tracts_c8 shp).to_crs m07_gdf_listings_c15.crs

/-- Module 07 cell 30: gdf_counties = gdf_tracts.dissolve("COUNTYFP"),
dissolve preserves CRS. -/
def m07_gdf_counties_c30 (shp : String) : Gdf := m07_gdf_tracts_c20 shp

/-- Module 07 cell 43: gdf_tracts = gdf_tracts.to_crs("epsg:2163"). -/
def m07_gdf_tracts_c43 (shp : String) : Gdf :=
  (m07_gdf_tracts_c20 shp).to_crs epsg2163

/-- Module 07 cell 43: gdf_listings = gdf_listings.to_crs("epsg:2163"). -/
def m07_gdf_listings_c43 : Gdf := m07_gdf_listings_c15.to_crs epsg2163

/-- Module 07 cell 45: gdf_tracts = gdf_tracts.to_crs(utm_11). -/
def m07_gdf_tracts_c45 (shp : String) : Gdf :=
  (m07_gdf_tracts_c43 shp).to_crs utm11

/-- Module 07 cell 45: gdf_listings = gdf_listings.to_crs(utm_11). -/
def m07_gdf_listings_c45 : Gdf := m07_gdf_listings_c43.to_crs utm11

/-- Module 07 cell 57: gdf_counties = gdf_counties.to_crs(gdf_listings.crs),
the reprojection immediately preceding the cell-58 left spatial join
gpd.sjoin(gdf_listings, gdf_counties, how="left", op="within"). -/
def m07_gdf_counties_c57 (shp : String) : Gdf :=
  (m07_gdf_counties_c30 shp).to_crs m07_gdf_listings_c45.crs

/-- Module 12 cell 4: gdf_tracts = gpd.read_file(shapefile). -/
def m12_gdf_tracts (shp : String) : Gdf := ⟨shp⟩

/-- Module 12 cell 6: gdf_tracts_data = pd.merge(left=gdf_tracts, ...),
merge with the geodataframe on the left preserves its CRS. -/
def m12_gdf_tracts_data (shp : String) : Gdf := m12_gdf_tracts shp

/-- Module 12 cell 8: gdf_listings = gpd.GeoDataFrame(df_listings,
crs="epsg:4326"). -/
def m12_gdf_listings_c8 : Gdf := ⟨epsg4326⟩

/-- Module 12 cell 10: gdf_listings = gdf_listings.to_crs(gdf_tracts_data.crs),
the reprojection immediately preceding the cell-11 inner spatial join
gpd.sjoin(gdf_listings, gdf_tracts_data, how="inner", op="within"). -/
def m12_gdf_listings_c10 (shp : String) : Gdf :=
  m12_gdf_listings_c8.to_crs (m12_gdf_tracts_data shp).crs

/-!
Row/frame model for the module 12 data preparation and the module 12
dummy-variable cell.  A row maps column names to nullable rational values;
a frame is a list of rows.
-/

/-- A data row: an association list from column name to a nullable value. -/
abbrev Row := List (String × Option ℚ)

/-- Value of a column in a row (none when the column is absent or null). -/
def getCol (r : Row) (c : String) : Option ℚ :=
  match List.lookup c r with
  | some v => v
  | none => none

/-- The row has a non-null value in the column. -/
def hasVal (r : Row) (c : String) : Bool := (getCol r c).isSome

/-- gdf[cols].dropna(): the rows of gdf with no null among cols.  In
pandas, selecting the columns first means dropna only inspects cols. -/
def selectDropna (cols : List String) (df : List Row) : List Row :=
  df.filter (fun r => cols.all (hasVal r))

/-- Module 12 OLS cells: data = gdf[[response] + predictors].dropna(). -/
def olsData (response : String) (predictors : List String)
    (gdf : List Row) : List Row :=
  selectDropna (response :: predictors) gdf

/-- X = data[predictors]: one row of predictor values per retained row. -/
def olsX (response : String) (predictors : List String)
    (gdf : List Row) : List (List (Option ℚ)) :=
  (olsData response predictors gdf).map (fun r => predictors.map (getCol r))

/-- y = data[response]: the response vector over the retained rows. -/
def olsY (response : String) (predictors : List String)
    (gdf : List Row) : List (Option ℚ) :=
  (olsData response predictors gdf).map (fun r => getCol r response)

/-- sm.add_constant(X): prepend a constant-1 column to the design matrix. -/
def add_constant (X : List (List (Option ℚ))) : List (List (Option ℚ)) :=
  X.map (fun xs => some 1 :: xs)

/-- The response and predictor columns of the five sm.OLS fits of module 12
(cells 16, 20, 22, 26 and 33, in order). -/
def m12_fits : List (String × List String) :=
  [ ("rent", ["sqft"])
  , ("rent", ["bedrooms", "sqft"])
  , ("rent", ["bedrooms", "sqft", "med_home_value", "mean_commute_time"])
  , ("rent", ["bedrooms", "sqft", "med_home_value", "mean_commute_time",
              "majority_white"])
  , ("rent_log", ["bedrooms", "sqft", "med_home_value", "mean_commute_time"]) ]

/-- Pandas comparison series > threshold: null compares as False. -/
def seriesGtThreshold (v : Option ℚ) (t : ℚ) : Bool :=
  match v with
  | none => false
  | some x => decide (t < x)

/-- Module 12 cell 25, per row: (gdf["pct_white"] > 50).astype(int). -/
def majorityWhiteVal (r : Row) : ℚ :=
  if seriesGtThreshold (getCol r "pct_white") 50 then 1 else 0

/-- One row of module 12 cell 25: extend the row with its dummy value. -/
def addDummy (r : Row) : Row :=
  ("majority_white", some (majorityWhiteVal r)) :: r

/-- Module 12 cell 25: gdf["majority_white"] = (gdf["pct_white"] > 50)
.astype(int), adding the dummy column to every row. -/
def withMajorityWhite (df : List Row) : List Row :=
  df.map addDummy

/-- Module 12 cell 31: gdf["rent_log"] = np.log(gdf["rent"]); log is an
abstract numeric map f, and nulls propagate. -/
def withLogCol (f : ℚ → ℚ) (df : List Row) : List Row :=
  df.map (fun r => (("rent_log", (getCol r "rent").map f) : String × Option ℚ) :: r)

/-!
Module 03 int-to-string conversion, three ways (cells 97-104).
-/

/-- Module 03 cell 91: int_list = [2, 4, 6, 8, 10]. -/
def int_list : List Int := [2, 4, 6, 8, 10]

/-- Module 03 cell 97: str_list = []. -/
def str_list_c97 : List String := []

/-- Module 03 cell 98: str_list.append(str(int_list[0])). -/
def str_list_c98 : List String := str_list_c97 ++ [toString (int_list.getD 0 0)]

/-- Module 03 cell 100: the four remaining explicit appends
str_list.append(str(int_list[i])) for i = 1, 2, 3, 4. -/
def str_list_c100 : List String :=
  str_list_c98 ++ [toString (int_list.getD 1 0)] ++ [toString (int_list.getD 2 0)]
    ++ [toString (int_list.getD 3 0)] ++ [toString (int_list.getD 4 0)]

/-- Module 03 cell 103: new_list = []; for value in int_list:
new_list.append(str(value)). -/
def loop_convert (l : List Int) : List String :=
  l.foldl (fun acc v => acc ++ [toString v]) []

/-- Module 03 cell 104: [str(value) for value in int_list]. -/
def comp_convert (l : List Int) : List String :=
  l.map (fun v => toString v)

/-- A small concrete frame (with nulls) used to instantiate the generic
theorems about the module 12 data preparation. -/
def exampleGdf : List Row :=
  [ [("rent", some 1000), ("sqft", some 50), ("pct_white", some 60)]
  , [("rent", none), ("sqft", some 30), ("pct_white", some 40)]
  , [("rent", some 2000), ("sqft", none), ("pct_white", none)] ]

/-!
Helper lemmas (shared across the claim theorems below).
-/

/-- Folding list appends of singletons equals mapping: the accumulator
form of the module 03 for loop. -/
theorem foldl_append_singleton (l : List Int) (acc : List String) :
    l.foldl (fun a v => a ++ [toString v]) acc = acc ++ l.map toString := by
  induction l generalizing acc with
  | nil => simp
  | cons x xs ih => simp [List.foldl, ih]

/-- Every row retained by selectDropna has a non-null value in each of the
selected columns. -/
theorem mem_selectDropna {cols : List String} {df : List Row} {r : Row}
    (h : r ∈ selectDropna cols df) : ∀ c ∈ cols, hasVal r c = true := by
  have hall : cols.all (hasVal r) = true := (List.mem_filter.mp h).2
  intro c hc
  exact List.all_eq_true.mp hall c hc

/-!
Claim theorems.
-/

/-- C1: every OLS fit, spatial predicate evaluation (sjoin, within,
intersects) and coordinate reprojection (to_crs) in the four notebooks is
a direct call into statsmodels respectively geopandas; no notebook cell
defines a function of its own; and the only for loops and list
comprehensions are module 03 cells whose calls are all Python builtins, so
the repository's own code only sequences library calls. -/
theorem ols_spatial_reprojection_delegated :
    delegationOk allCells = true ∧ noCustomDefs allCells = true ∧
    loopsOnlyBuiltin notebooks = true :=
  ⟨by decide, by decide, by decide⟩

/-- C2 counterexample: it is false that every notebook performs all five
activities; module 03 performs none of the five (it loads no tabular or
spatial dataset, merges nothing, computes no pandas descriptive statistic,
draws no plot and fits no model). -/
theorem not_every_notebook_performs_all_five :
    notebooks.all performsAllFive = false ∧
    performsAllFive nb03 = false ∧ loadsTabular nb03 = false ∧
    loadsSpatial nb03 = false ∧ mergesOrJoins nb03 = false ∧
    computesDescStats nb03 = false ∧ visualizes nb03 = false ∧
    fitsOLS nb03 = false := by
  decide

/-- C2 (amended): module 12 performs all five activities (loading tabular
and spatial data, merging/joining, descriptive statistics, visualization,
OLS fitting), and each of the five activities is performed by at least one
notebook, but modules 03, 06 and 07 each lack at least one activity. -/
theorem notebook_activities_amended :
    performsAllFive nb12 = true ∧
    notebooks.any loadsTabular = true ∧ notebooks.any loadsSpatial = true ∧
    notebooks.any mergesOrJoins = true ∧
    notebooks.any computesDescStats = true ∧
    notebooks.any visualizes = true ∧ notebooks.any fitsOLS = true ∧
    performsAllFive nb03 = false ∧ performsAllFive nb06 = false ∧
    performsAllFive nb07 = false := by
  decide

/-- C3: every data input of every cell is fetched from a
raw.githubusercontent.com HTTPS URL, no cell reads a local file, every
file written is a PNG produced by a savefig call, and no cell persists a
frame with to_csv or to_file. -/
theorem remote_inputs_png_outputs_only :
    allCells.all (fun c => remoteInputsOnly c && writesOnlyPngViaSavefig c &&
      noFramePersistence c) = true := by
  decide

/-- C4: at both spatial-join call sites (module 07 cell 58, left join of
listings to counties; module 12 cell 11, inner join of listings to
tracts), the two GeoDataFrame arguments have equal CRS, whatever CRS the
shapefile carries, because the immediately preceding cell reprojects one
frame to the other's CRS; and in module 07 the frames' CRSs differ before
that explicit reprojection step. -/
theorem sjoin_crs_consistency :
    ∀ shp : String,
      m07_gdf_listings_c45.crs = (m07_gdf_counties_c57 shp).crs ∧
      (m12_gdf_listings_c10 shp).crs = (m12_gdf_tracts_data shp).crs ∧
      (m07_gdf_counties_c30 shp).crs = epsg4326 ∧
      m07_gdf_listings_c45.crs = utm11 ∧ epsg4326 ≠ utm11 :=
  fun _ => ⟨rfl, rfl, rfl, rfl, by decide⟩

/-- C5: no cell of any of the four notebooks contains a try/except
handler, so the notebooks never catch, transform, or recover from an
exception. -/
theorem no_exception_handling : noTryExcept allCells = true := by
  decide

/-- C6: no notebook reads any local file at all, and no file written by
any notebook is among the data inputs of any notebook, so each module's
results depend only on its own cells and its remote inputs. -/
theorem notebooks_independent : independentNotebooks notebooks = true := by
  decide

/-- C7: no cell of any notebook calls a randomness, sampling, or
concurrency primitive, and the module 12 design-matrix and
response-vector construction is a pure function of the input frame: two
runs on equal inputs produce equal X and y. -/
theorem deterministic_execution :
    noNondeterminism allCells = true ∧
    ∀ (df df2 : List Row) (resp : String) (preds : List String),
      df = df2 →
        olsX resp preds df = olsX resp preds df2 ∧
        olsY resp preds df = olsY resp preds df2 := by
  refine ⟨by decide, ?_⟩
  intro df df2 resp preds h
  rw [h]
  exact ⟨rfl, rfl⟩

/-- C7 witness: the determinism statement instantiated at the concrete
example frame and the module 12 simple-regression columns. -/
theorem deterministic_execution_witness :
    noNondeterminism allCells = true ∧
    (olsX "rent" ["sqft"] exampleGdf = olsX "rent" ["sqft"] exampleGdf ∧
     olsY "rent" ["sqft"] exampleGdf = olsY "rent" ["sqft"] exampleGdf) :=
  ⟨deterministic_execution.1,
   deterministic_execution.2 exampleGdf exampleGdf "rent" ["sqft"] rfl⟩

/-- C8: for each of the five OLS fits of module 12 and any frame present
at that point, the matrix passed to sm.OLS after sm.add_constant starts
every row with the constant 1, the design matrix and response vector have
equal row counts (both are column slices of the same dropna-filtered
frame), and no retained row has a null in any selected response or
predictor column. -/
theorem m12_ols_data_invariants :
    ∀ fit ∈ m12_fits, ∀ gdf : List Row,
      (olsX fit.1 fit.2 gdf).length = (olsY fit.1 fit.2 gdf).length ∧
      (∀ xr ∈ add_constant (olsX fit.1 fit.2 gdf), xr.head? = some (some 1)) ∧
      (∀ xr ∈ olsX fit.1 fit.2 gdf, ∀ v ∈ xr, v.isSome = true) ∧
      (∀ v ∈ olsY fit.1 fit.2 gdf, v.isSome = true) := by
  intro fit _ gdf
  refine ⟨?_, ?_, ?_, ?_⟩
  · simp [olsX, olsY]
  · intro xr hxr
    obtain ⟨ys, _, rfl⟩ := List.mem_map.mp hxr
    rfl
  · intro xr hxr v hv
    obtain ⟨r, hr, rfl⟩ := List.mem_map.mp hxr
    obtain ⟨c, hc, rfl⟩ := List.mem_map.mp hv
    have := mem_selectDropna hr c (List.mem_cons_of_mem _ hc)
    simpa [hasVal] using this
  · intro v hv
    obtain ⟨r, hr, rfl⟩ := List.mem_map.mp hv
    have := mem_selectDropna hr fit.1 (List.mem_cons_self _ _)
    simpa [hasVal] using this

/-- C8 witness: the invariants instantiated at the first module 12 fit
(response "rent", predictor "sqft") on the concrete example frame. -/
theorem m12_ols_data_invariants_witness :
    (olsX "rent" ["sqft"] exampleGdf).length =
      (olsY "rent" ["sqft"] exampleGdf).length ∧
    (∀ xr ∈ add_constant (olsX "rent" ["sqft"] exampleGdf),
      xr.head? = some (some 1)) ∧
    (∀ xr ∈ olsX "rent" ["sqft"] exampleGdf, ∀ v ∈ xr, v.isSome = true) ∧
    (∀ v ∈ olsY "rent" ["sqft"] exampleGdf, v.isSome = true) :=
  m12_ols_data_invariants ("rent", ["sqft"]) (by decide) exampleGdf

/-- C9: the three int-to-string conversion methods of module 03 agree on
int_list (the five explicit appends, the for loop, and the list
comprehension produce the same list of strings), and the loop and the
comprehension agree on every list of integers. -/
theorem int_to_string_methods_equivalent :
    str_list_c100 = loop_convert int_list ∧
    str_list_c100 = comp_convert int_list ∧
    ∀ l : List Int, loop_convert l = comp_convert l := by
  refine ⟨by decide, by decide, ?_⟩
  intro l
  simpa [loop_convert, comp_convert] using foldl_append_singleton l []

/-- C10: for every row of the frame after module 12 cell 25, the
majority_white dummy is 1 exactly when pct_white exceeds 50 and 0
otherwise (nulls compare as not-greater, hence 0), so the dummy always
lies in {0, 1} and the two categories are mutually exclusive and
exhaustive. -/
theorem majority_white_dummy_wellformed :
    ∀ df : List Row, ∀ r ∈ withMajorityWhite df,
      ((getCol r "majority_white" = some 1 ∧
          seriesGtThreshold (getCol r "pct_white") 50 = true) ∨
       (getCol r "majority_white" = some 0 ∧
          seriesGtThreshold (getCol r "pct_white") 50 = false)) ∧
      ¬(getCol r "majority_white" = some 1 ∧
        getCol r "majority_white" = some 0) := by
  intro df r hr
  obtain ⟨r0, _, rfl⟩ := List.mem_map.mp hr
  have hm : getCol (addDummy r0) "majority_white" = some (majorityWhiteVal r0) := rfl
  have hp : getCol (addDummy r0) "pct_white" = getCol r0 "pct_white" := rfl
  constructor
  · cases h : seriesGtThreshold (getCol r0 "pct_white") 50 with
    | true =>
      left
      refine ⟨?_, by rw [hp]; exact h⟩
      rw [hm]
      simp [majorityWhiteVal, h]
    | false =>
      right
      refine ⟨?_, by rw [hp]; exact h⟩
      rw [hm]
      simp [majorityWhiteVal, h]
  · rintro ⟨h1, h0⟩
    rw [h1] at h0
    have : (1 : ℚ) = 0 := Option.some.inj h0
    norm_num at this

/-- C10 witness: the dummy well-formedness at a concrete row of the
example frame (pct_white = 60, so the dummy is 1 there). -/
theorem majority_white_dummy_wellformed_witness :
    ((getCol (addDummy [("pct_white", some 60)]) "majority_white" = some 1 ∧
        seriesGtThreshold
          (getCol (addDummy [("pct_white", some 60)]) "pct_white") 50 = true) ∨
     (getCol (addDummy [("pct_white", some 60)]) "majority_white" = some 0 ∧
        seriesGtThreshold
          (getCol (addDummy [("pct_white", some 60)]) "pct_white") 50 = false)) ∧
    ¬(getCol (addDummy [("pct_white", some 60)]) "majority_white" = some 1 ∧
      getCol (addDummy [("pct_white", some 60)]) "majority_white" = some 0) :=
  majority_white_dummy_wellformed [[("pct_white", some 60)]]
    (addDummy [("pct_white", some 60)]) (by decide)

end PPD534
